import Mathlib

/-!
Shallow embedding of the conditional file-fetch cache in ulmo/util/misc.py.

Remote HTTP header values are modelled as `Option` fields (a missing
`content-length` or `last-modified` header is `none`); timestamps are
integers (whole seconds, matching the second-granularity of the formats the
code parses); the local file is `Option LocalFile` (`none` means the path
does not exist).  Side effects (network commands, directory creation, file
writes) are modelled as explicit `Action` traces, and the Python exceptions
(`NotImplementedError` in `download_if_new`, the `ValueError` from tuple
unpacking in `_ftp_download_if_new`) as `Except.error` results.
-/

set_option autoImplicit false

namespace Ulmo

/-- Local filesystem state for one path when the path exists:
`os.path.getsize` and `os.path.getmtime` results. -/
structure LocalFile where
  size : Nat
  mtime : Int
deriving DecidableEq, Repr

/-- Result of the HTTP HEAD probe in `_http_download_if_new`: the optional
`content-length` and `last-modified` response headers. -/
structure HttpHead where
  contentLength : Option Nat
  lastModified : Option Int
deriving DecidableEq, Repr

/-- Result of the FTP probe in `_ftp_download_if_new`: `ftp.size` and the
parsed MDTM reply, both always present for FTP. -/
structure FtpRemote where
  size : Nat
  lastModified : Int
deriving DecidableEq, Repr

/-- `_path_last_modified(path)`: `None` when the path does not exist,
otherwise the file mtime. -/
def path_last_modified (lf : Option LocalFile) : Option Int :=
  match lf with
  | none => none
  | some f => some f.mtime

/-- `_request_file_size_matches(request, path)`: true iff the
`content-length` header is present and equals the local file size; a
missing header yields `false` (the Python `if content_length and ...`
falls to the `else: return False` branch). -/
def request_file_size_matches (contentLength : Option Nat) (pathSize : Nat) : Bool :=
  match contentLength with
  | some n => n == pathSize
  | none => false

/-- `_request_is_newer_than_file(request, path)`: first component is the
returned boolean, second is whether `warnings.warn` fired.  A missing local
mtime returns true silently; a missing `last-modified` header warns and
returns true; otherwise strict comparison of the parsed header against the
file mtime. -/
def request_is_newer_than_file (requestLastModified : Option Int)
    (pathLastModified : Option Int) : Bool × Bool :=
  match pathLastModified with
  | none => (true, false)
  | some plm =>
    match requestLastModified with
    | none => (true, true)
    | some rlm => (decide (rlm > plm), false)

/-- `_http_download_if_new(url, path, check_modified)` staleness decision:
first component is whether `_http_download_file` is invoked, second whether
a warning fired.  Mirrors the source: download when the path is missing or
`_request_file_size_matches` is false; otherwise, only when
`check_modified` holds and `_request_is_newer_than_file` returns true. -/
def http_download_if_new (head : HttpHead) (lf : Option LocalFile)
    (check_modified : Bool) : Bool × Bool :=
  match lf with
  | none => (true, false)
  | some f =>
    if !request_file_size_matches head.contentLength f.size then
      (true, false)
    else if check_modified then
      request_is_newer_than_file head.lastModified (path_last_modified (some f))
    else
      (false, false)

/-- `_ftp_download_if_new(url, path, check_modified)` staleness decision:
download when the path is missing or `os.path.getsize(path) !=
ftp_file_size`; otherwise only when `check_modified` holds and
`_path_last_modified(path) < ftp_last_modified` (strict). -/
def ftp_download_if_new (remote : FtpRemote) (lf : Option LocalFile)
    (check_modified : Bool) : Bool :=
  match lf with
  | none => true
  | some f =>
    if f.size != remote.size then true
    else if check_modified && decide (f.mtime < remote.lastModified) then true
    else false

/-- Observable side effects of the sync code, in program order. -/
inductive Action where
  | httpHead
  | httpGet
  | mkdirParent
  | openWrite
  | ftpConnect
  | ftpMdtm
  | ftpSize
  | ftpRetr
deriving DecidableEq, Repr

/-- `_http_download_file(url, path)`: issues the GET, then
`mkdir_if_doesnt_exist(os.path.dirname(path))`, then opens the destination
for writing and streams the body in 64 KiB chunks. -/
def http_download_file_actions : List Action :=
  [Action.httpGet, Action.mkdirParent, Action.openWrite]

/-- `_ftp_download_file(ftp, ftp_path, local_path)`: opens the destination
for writing and issues `RETR`; no directory creation. -/
def ftp_download_file_actions : List Action :=
  [Action.openWrite, Action.ftpRetr]

/-- True iff `Action.mkdirParent` occurs in the trace strictly before the
first `Action.openWrite`: the fetcher creates the destination parent
directory before writing. -/
def mkdir_precedes_write (acts : List Action) : Bool :=
  (acts.takeWhile (fun a => a != Action.openWrite)).contains Action.mkdirParent

/-- Helper for modelling Python `str.rsplit(sep, 1)`: splits a character
list at its first occurrence of `c`, returning the part before and after. -/
def breakAtChar (c : Char) : List Char → Option (List Char × List Char)
  | [] => none
  | x :: xs =>
    if x == c then some ([], xs)
    else
      match breakAtChar c xs with
      | none => none
      | some (pre, post) => some (x :: pre, post)

/-- Python `s.rsplit(c, 1)`: two pieces split at the last occurrence of `c`
when `c` occurs in `s`, else the one-element list `[s]`. -/
def rsplit1 (c : Char) (s : String) : List String :=
  match breakAtChar c s.data.reverse with
  | none => [s]
  | some (afterRev, beforeRev) =>
    [String.mk beforeRev.reverse, String.mk afterRev.reverse]

/-- Full run of `_ftp_download_if_new`: connect, unpack
`parsed.path.rsplit('/', 1)` into `(directory, filename)` (a `ValueError`
when the path holds no slash), probe MDTM and SIZE, decide, and fetch when
stale.  Returns the action trace and either the error or whether a download
happened. -/
def ftp_download_if_new_run (ftpPath : String) (remote : FtpRemote)
    (lf : Option LocalFile) (check_modified : Bool) :
    List Action × Except String Bool :=
  match rsplit1 '/' ftpPath with
  | [_, _] =>
    let probed := [Action.ftpConnect, Action.ftpMdtm, Action.ftpSize]
    if ftp_download_if_new remote lf check_modified then
      (probed ++ ftp_download_file_actions, Except.ok true)
    else
      (probed, Except.ok false)
  | _ => ([Action.ftpConnect], Except.error "ValueError: need more than 1 value to unpack")

/-- Full run of `_http_download_if_new`: HEAD probe, decision, fetch when
stale. -/
def http_download_if_new_run (head : HttpHead) (lf : Option LocalFile)
    (check_modified : Bool) : List Action × Except String Bool :=
  if (http_download_if_new head lf check_modified).1 then
    ([Action.httpHead] ++ http_download_file_actions, Except.ok true)
  else
    ([Action.httpHead], Except.ok false)

/-- Remote world state visible to `download_if_new`: whichever probe runs
sees the matching component. -/
structure World where
  head : HttpHead
  ftpRemote : FtpRemote
  lf : Option LocalFile
deriving DecidableEq, Repr

/-- One `sync` call as a state transformation: when the decision says
download, the local file is replaced by whatever the transfer produces;
otherwise it is untouched.  First component records whether a transfer
happened. -/
def http_sync_effect (head : HttpHead) (lf : Option LocalFile)
    (check_modified : Bool) (fetched : LocalFile) : Bool × Option LocalFile :=
  if (http_download_if_new head lf check_modified).1 then (true, some fetched)
  else (false, lf)

/-- FTP analogue of `http_sync_effect`. -/
def ftp_sync_effect (remote : FtpRemote) (lf : Option LocalFile)
    (check_modified : Bool) (fetched : LocalFile) : Bool × Option LocalFile :=
  if ftp_download_if_new remote lf check_modified then (true, some fetched)
  else (false, lf)

/-- Whether the with-body that consumed the yielded handle returned
normally or raised. -/
inductive BodyOutcome where
  | normal
  | raises
deriving DecidableEq, Repr

/-- Observable outcome of one `open_file_for_url` use. -/
structure HandleRun where
  handleOpened : Bool
  handleClosed : Bool
  exceptionPropagated : Bool
deriving DecidableEq, Repr

/-- `open_file_for_url(url, path, check_modified)`: a `@contextmanager`
generator that downloads, opens the path, yields the handle, and calls
`open_file.close()` on the line after the `yield` with no `try/finally`.
When the with-body raises, the exception is thrown into the generator at
the yield point, so the `close()` line never executes and the exception
propagates with the handle still open; `close()` runs only on normal
completion of the body. -/
def open_file_for_url_run (body : BodyOutcome) : HandleRun :=
  match body with
  | BodyOutcome.normal => ⟨true, true, false⟩
  | BodyOutcome.raises => ⟨true, false, true⟩

end Ulmo

namespace Ulmo

/-- Python `str.startswith(pre)` on characters; the literal prefix is given
as its character list. -/
def str_startswith_chars : List Char → List Char → Bool
  | [], _ => true
  | _ :: _, [] => false
  | p :: ps, c :: cs => p == c && str_startswith_chars ps cs

/-- `parsed.scheme.startswith(pre)` as used in `download_if_new`. -/
def startswith (s : String) (pre : List Char) : Bool :=
  str_startswith_chars pre s.data

/-- `download_if_new(url, path, check_modified)` with scheme dispatch
modelled on characters: `scheme.startswith('ftp')` first, then
`scheme.startswith('http')`, else `NotImplementedError` with no action
taken. -/
def download_if_new_run (scheme ftpPath : String) (w : World)
    (check_modified : Bool) : List Action × Except String Bool :=
  if startswith scheme ['f', 't', 'p'] then
    ftp_download_if_new_run ftpPath w.ftpRemote w.lf check_modified
  else if startswith scheme ['h', 't', 't', 'p'] then
    http_download_if_new_run w.head w.lf check_modified
  else
    ([], Except.error "NotImplementedError: only ftp and http urls are currently implemented")

theorem str_startswith_chars_head_eq (p c : Char) (ps cs : List Char)
    (h : str_startswith_chars (p :: ps) (c :: cs) = true) : p = c := by
  simp only [str_startswith_chars, Bool.and_eq_true, beq_iff_eq] at h
  exact h.1

theorem startswith_http_imp_not_ftp (s : String)
    (h : startswith s ['h', 't', 't', 'p'] = true) :
    startswith s ['f', 't', 'p'] = false := by
  unfold startswith at h ⊢
  cases hs : s.data with
  | nil => rw [hs] at h; simp [str_startswith_chars] at h
  | cons c cs =>
    rw [hs] at h
    have hc : c = 'h' := (str_startswith_chars_head_eq _ _ _ _ h).symm
    subst hc
    simp [str_startswith_chars]

theorem breakAtChar_eq_none_of_not_mem (c : Char) (l : List Char)
    (h : c ∉ l) : breakAtChar c l = none := by
  induction l with
  | nil => rfl
  | cons x xs ih =>
    have hcx : ¬ (c = x) := fun he => h (List.mem_cons.mpr (Or.inl he))
    have hx : (x == c) = false := beq_eq_false_iff_ne.mpr (fun he => hcx he.symm)
    have hxs : c ∉ xs := fun hm => h (List.mem_cons_of_mem x hm)
    simp [breakAtChar, hx, ih hxs]

theorem rsplit1_of_no_sep (c : Char) (s : String) (h : c ∉ s.data) :
    rsplit1 c s = [s] := by
  have hb : breakAtChar c s.data.reverse = none :=
    breakAtChar_eq_none_of_not_mem c _ (by simpa using h)
  simp [rsplit1, hb]

end Ulmo

namespace Ulmo

/-- C1 counterexample: with no content-length header, check_modified false,
and an existing local file (size 5, mtime 0), the staleness decision is
true, refuting the claim that it returns false and no download happens. -/
theorem c1_counterexample :
    ¬ ((http_download_if_new ⟨none, none⟩ (some ⟨5, 0⟩) false).1 = false) := by
  decide

/-- C1 (amended): when the HTTP response carries no content-length header,
check_modified is false, and the local file exists, the staleness decision
returns true and the sync run performs a download — the absent size is
treated as a size mismatch rather than as a reason to trust the cache. -/
theorem c1_absent_size_downloads_anyway (head : HttpHead) (f : LocalFile)
    (h : head.contentLength = none) :
    http_download_if_new head (some f) false = (true, false) ∧
    http_download_if_new_run head (some f) false =
      ([Action.httpHead] ++ http_download_file_actions, Except.ok true) := by
  have hm : request_file_size_matches head.contentLength f.size = false := by
    rw [h]
    rfl
  have h1 : http_download_if_new head (some f) false = (true, false) := by
    simp [http_download_if_new, hm]
  exact ⟨h1, by simp [http_download_if_new_run, h1]⟩

/-- C1 witness: the amended theorem applied at a concrete header with no
content-length and a local file of size 5. -/
theorem c1_witness :
    http_download_if_new ⟨none, none⟩ (some ⟨5, 0⟩) false = (true, false) ∧
    http_download_if_new_run ⟨none, none⟩ (some ⟨5, 0⟩) false =
      ([Action.httpHead] ++ http_download_file_actions, Except.ok true) :=
  c1_absent_size_downloads_anyway ⟨none, none⟩ ⟨5, 0⟩ rfl

/-- C2: code bug — `open_file_for_url` has no try/finally around its yield,
so when the with-body raises, the `close()` line after the yield never runs
and the exception propagates with the handle still open; the handle is
closed only on normal completion of the body. -/
theorem c2_handle_left_open_on_raise :
    (open_file_for_url_run BodyOutcome.raises).handleClosed = false ∧
    (open_file_for_url_run BodyOutcome.raises).exceptionPropagated = true ∧
    (open_file_for_url_run BodyOutcome.normal).handleClosed = true := by
  decide

/-- C3: when the local file exists and the remote size is present but
differs from the local size, both the HTTP and the FTP staleness decisions
return true, whatever the timestamps and the check_modified flag. -/
theorem c3_size_mismatch_forces_fetch (cl : Nat) (lm : Option Int)
    (f : LocalFile) (cm : Bool) (frem : FtpRemote)
    (h1 : cl ≠ f.size) (h2 : frem.size ≠ f.size) :
    (http_download_if_new ⟨some cl, lm⟩ (some f) cm).1 = true ∧
    ftp_download_if_new frem (some f) cm = true := by
  have hm : request_file_size_matches (some cl) f.size = false := by
    simp [request_file_size_matches]
    exact h1
  have hb : (f.size != frem.size) = true := by
    simp [bne_iff_ne]
    exact fun he => h2 he.symm
  constructor
  · simp [http_download_if_new, hm]
  · simp [ftp_download_if_new, hb]

/-- C3 witness: remote size 1 against local size 2 (HTTP) and remote size 3
against local size 2 (FTP), with check_modified disabled and no
timestamps. -/
theorem c3_witness :
    (1 : Nat) ≠ (2 : Nat) ∧ (3 : Nat) ≠ (2 : Nat) ∧
    ((http_download_if_new ⟨some 1, none⟩ (some ⟨2, 0⟩) false).1 = true ∧
     ftp_download_if_new ⟨3, 0⟩ (some ⟨2, 0⟩) false = true) :=
  ⟨by decide, by decide,
   c3_size_mismatch_forces_fetch 1 none ⟨2, 0⟩ false ⟨3, 0⟩ (by decide) (by decide)⟩

/-- C4 counterexample: with the remote size and last-modified both absent
and check_modified true on an existing file, the code decides to download
through the size-mismatch branch, so no warning fires — refuting the claim
that the decision is true together with a recorded warning. -/
theorem c4_counterexample :
    ¬ (http_download_if_new ⟨none, none⟩ (some ⟨5, 0⟩) true = (true, true)) := by
  decide

/-- C4 (amended): the missing-timestamp warning fires when the remote size
is present and matches the local size, the remote last-modified is absent,
and check_modified is true: the decision is then true with a warning
recorded. -/
theorem c4_matched_size_missing_timestamp_warns (f : LocalFile) :
    http_download_if_new ⟨some f.size, none⟩ (some f) true = (true, true) := by
  simp [http_download_if_new, request_file_size_matches, path_last_modified,
    request_is_newer_than_file]

/-- C5: `download_if_new` dispatches on the URL scheme: a scheme starting
with neither "ftp" nor "http" raises NotImplementedError with an empty
action trace (no probe, no fetch); an "ftp"-family scheme runs the FTP
probe-and-fetch pair and an "http"-family scheme the HTTP pair. -/
theorem c5_scheme_dispatch (scheme ftpPath : String) (w : World) (cm : Bool) :
    (startswith scheme ['f', 't', 'p'] = false →
     startswith scheme ['h', 't', 't', 'p'] = false →
      download_if_new_run scheme ftpPath w cm =
        ([], Except.error "NotImplementedError: only ftp and http urls are currently implemented")) ∧
    (startswith scheme ['f', 't', 'p'] = true →
      download_if_new_run scheme ftpPath w cm =
        ftp_download_if_new_run ftpPath w.ftpRemote w.lf cm) ∧
    (startswith scheme ['h', 't', 't', 'p'] = true →
      download_if_new_run scheme ftpPath w cm =
        http_download_if_new_run w.head w.lf cm) := by
  refine ⟨fun h1 h2 => ?_, fun h1 => ?_, fun h2 => ?_⟩
  · simp [download_if_new_run, h1, h2]
  · simp [download_if_new_run, h1]
  · have h1 := startswith_http_imp_not_ftp scheme h2
    simp [download_if_new_run, h1, h2]

/-- C5 witness: the dispatch theorem at the concrete schemes "gopher"
(error, empty trace), "ftp" (FTP pair) and "https" (HTTP pair). -/
theorem c5_witness :
    startswith "gopher" ['f', 't', 'p'] = false ∧
    startswith "gopher" ['h', 't', 't', 'p'] = false ∧
    download_if_new_run "gopher" "/a/b" ⟨⟨none, none⟩, ⟨0, 0⟩, none⟩ true =
      ([], Except.error "NotImplementedError: only ftp and http urls are currently implemented") ∧
    download_if_new_run "ftp" "/a/b" ⟨⟨none, none⟩, ⟨0, 0⟩, none⟩ true =
      ftp_download_if_new_run "/a/b" ⟨0, 0⟩ none true ∧
    download_if_new_run "https" "/a/b" ⟨⟨none, none⟩, ⟨0, 0⟩, none⟩ true =
      http_download_if_new_run ⟨none, none⟩ none true :=
  ⟨by decide, by decide,
   (c5_scheme_dispatch "gopher" "/a/b" ⟨⟨none, none⟩, ⟨0, 0⟩, none⟩ true).1
     (by decide) (by decide),
   (c5_scheme_dispatch "ftp" "/a/b" ⟨⟨none, none⟩, ⟨0, 0⟩, none⟩ true).2.1 (by decide),
   (c5_scheme_dispatch "https" "/a/b" ⟨⟨none, none⟩, ⟨0, 0⟩, none⟩ true).2.2 (by decide)⟩

/-- C6 counterexample: the claim that both transport fetchers create the
destination's parent directories before writing fails — the FTP fetcher's
trace never creates a directory. -/
theorem c6_counterexample :
    ¬ (mkdir_precedes_write http_download_file_actions = true ∧
       mkdir_precedes_write ftp_download_file_actions = true) := by
  decide

/-- C6 (amended): the HTTP fetcher creates the destination's parent
directory before opening the file for writing, but the FTP fetcher performs
no directory creation at all. -/
theorem c6_http_mkdir_ftp_none :
    mkdir_precedes_write http_download_file_actions = true ∧
    Action.mkdirParent ∉ ftp_download_file_actions := by
  decide

/-- C7: a first sync against a missing local file transfers; a second sync
whose remote size and last-modified equal the local file's size and mtime
decides no-fetch, performs no transfer, and leaves the file unchanged —
for FTP and HTTP alike, so two syncs against an unchanged remote make
exactly one transfer. -/
theorem c7_second_sync_no_transfer (sz : Nat) (mt : Int) (fetched : LocalFile)
    (cm : Bool) :
    (ftp_sync_effect ⟨sz, mt⟩ none cm fetched).1 = true ∧
    ftp_sync_effect ⟨sz, mt⟩ (some ⟨sz, mt⟩) true fetched = (false, some ⟨sz, mt⟩) ∧
    (http_sync_effect ⟨some sz, some mt⟩ none cm fetched).1 = true ∧
    http_sync_effect ⟨some sz, some mt⟩ (some ⟨sz, mt⟩) true fetched =
      (false, some ⟨sz, mt⟩) := by
  refine ⟨rfl, ?_, rfl, ?_⟩
  · simp [ftp_sync_effect, ftp_download_if_new]
  · simp [http_sync_effect, http_download_if_new, request_file_size_matches,
      path_last_modified, request_is_newer_than_file]

/-- C8 counterexample: with the remote size absent, both timestamps present
and equal, and check_modified true, the code decides to fetch (absent size
counts as a mismatch), while the claim predicts no fetch for equal
timestamps. -/
theorem c8_counterexample :
    ¬ ((http_download_if_new ⟨none, some 10⟩ (some ⟨5, 10⟩) true).1 = false) := by
  decide

/-- C8 (amended): when the local file exists, the remote size is present
and equal to the local size, check_modified is true, and both timestamps
are present, the decision is true exactly when the remote last-modified is
strictly greater than the local mtime — in particular equal timestamps
yield no fetch — for HTTP and FTP alike. -/
theorem c8_fetch_iff_strictly_newer (sz : Nat) (mt rlm : Int) :
    (http_download_if_new ⟨some sz, some rlm⟩ (some ⟨sz, mt⟩) true).1 =
      decide (rlm > mt) ∧
    ftp_download_if_new ⟨sz, rlm⟩ (some ⟨sz, mt⟩) true = decide (mt < rlm) ∧
    (http_download_if_new ⟨some sz, some rlm⟩ (some ⟨sz, rlm⟩) true).1 = false ∧
    ftp_download_if_new ⟨sz, rlm⟩ (some ⟨sz, rlm⟩) true = false := by
  refine ⟨?_, ?_, ?_, ?_⟩
  · simp [http_download_if_new, request_file_size_matches, path_last_modified,
      request_is_newer_than_file]
  · cases hlt : decide (mt < rlm) <;>
      simp [ftp_download_if_new, hlt]
  · simp [http_download_if_new, request_file_size_matches, path_last_modified,
      request_is_newer_than_file]
  · simp [ftp_download_if_new]

/-- C9: when the local file does not exist, both the HTTP and the FTP
staleness decisions return true whatever the remote metadata and the
check_modified flag, and the HTTP run performs the download. -/
theorem c9_missing_local_always_fetches (head : HttpHead) (frem : FtpRemote)
    (cm : Bool) :
    (http_download_if_new head none cm).1 = true ∧
    ftp_download_if_new frem none cm = true ∧
    http_download_if_new_run head none cm =
      ([Action.httpHead] ++ http_download_file_actions, Except.ok true) := by
  refine ⟨rfl, rfl, ?_⟩
  simp [http_download_if_new_run, http_download_if_new]

/-- C10: for an FTP URL whose parsed path holds no slash, the run opens the
control connection and then fails with the tuple-unpacking ValueError: the
trace is exactly the connect action, so no MDTM/SIZE probe, no decision,
and no file write happen. -/
theorem c10_ftp_path_without_slash (p : String) (remote : FtpRemote)
    (lf : Option LocalFile) (cm : Bool) (h : '/' ∉ p.data) :
    ftp_download_if_new_run p remote lf cm =
      ([Action.ftpConnect], Except.error "ValueError: need more than 1 value to unpack") := by
  simp [ftp_download_if_new_run, rsplit1_of_no_sep '/' p h]

/-- C10 witness: the theorem at the empty path (what urlparse yields for
"ftp://host"). -/
theorem c10_witness :
    ('/' ∉ "".data) ∧
    ftp_download_if_new_run "" ⟨0, 0⟩ none true =
      ([Action.ftpConnect], Except.error "ValueError: need more than 1 value to unpack") :=
  ⟨by decide, c10_ftp_path_without_slash "" ⟨0, 0⟩ none true (by decide)⟩

end Ulmo
